import Mathlib

/-!
Shallow embedding of the erp-predictor prediction service
(src/prediction-service): feature engineering, ML model layer,
confidence scoring, insight generation and the prediction engine
orchestrator, together with theorems settling the specification claims.

Modelling conventions:
* Python floats are modelled as rationals (ℚ).  `round(x, 2)` is `round2`
  below, built on an exact half-to-even integer rounding.
* `datetime` values are modelled at calendar-day granularity as integers
  (days since an arbitrary epoch); `timedelta(days=k)` is `+ k`.
* pandas frames are `Frame`: a date column plus named numeric columns
  whose cells are `Option ℚ` (`none` models NaN).
* External effects the code merely consumes (the fitted sklearn
  regressor, numpy square roots inside `std`, calendar accessors of
  pandas datetimes, the DGPT insight service, `datetime.now()`, and the
  exception behaviour of I/O) are gathered in the `Ext` record and
  treated as uninterpreted data that theorems quantify over.
-/

namespace ErpPredictor

/-- Python `round()` to the nearest integer with half-to-even
tie-breaking, on exact rationals.  (CPython rounds the binary float
nearest the decimal value; on the values reached by the verified
properties the two agree.) -/
def pythonRound (q : ℚ) : ℤ :=
  let fl := q.floor
  let fr := q - fl
  if fr < 1 / 2 then fl
  else if 1 / 2 < fr then fl + 1
  else if fl % 2 = 0 then fl else fl + 1

/-- Python `round(x, 2)`: round to two decimal places. -/
def round2 (q : ℚ) : ℚ := (pythonRound (q * 100) : ℚ) / 100

/-- Binary minimum on ℚ by an explicit comparison (definitionally
evaluable by the kernel, unlike the lattice `min` on ℚ). -/
def qmin (a b : ℚ) : ℚ := if a ≤ b then a else b

/-- Binary maximum on ℚ by an explicit comparison. -/
def qmax (a b : ℚ) : ℚ := if b ≤ a then a else b

/-- Python `min()` over a non-empty float list (none when empty). -/
def qListMin : List ℚ → Option ℚ
  | [] => none
  | x :: t => some (t.foldl qmin x)

/-- Python `max()` over a non-empty float list (none when empty). -/
def qListMax : List ℚ → Option ℚ
  | [] => none
  | x :: t => some (t.foldl qmax x)

/-- np.mean of a list (callers in the source never take the mean of an
empty array on live paths; pandas/numpy would give NaN there, we give 0). -/
def qMean (l : List ℚ) : ℚ := if l.isEmpty then 0 else l.sum / l.length

/-- Sample variance with ddof=1, the quantity under pandas'
`rolling(...).std()`; only evaluated on windows of length ≥ 2. -/
def sampleVar (l : List ℚ) : ℚ :=
  (l.map (fun x => (x - qMean l) ^ 2)).sum / ((l.length : ℚ) - 1)

/-- Population variance, the quantity under `np.std`. -/
def popVar (l : List ℚ) : ℚ := qMean (l.map (fun x => (x - qMean l) ^ 2))

/-- One point of the response: `PredictionPoint` of models/schemas.py,
with the ISO date string modelled as the underlying day number. -/
structure PredictionPoint where
  date : ℤ
  predicted_value : ℚ
  confidence : ℚ
deriving DecidableEq

instance : Inhabited PredictionPoint := ⟨⟨0, 0, 0⟩⟩

/-- Response metadata (`_create_metadata` / pipeline fallback); the
`last_updated` wall-clock string is modelled as the current day number. -/
structure Metadata where
  model_used : String
  data_points : ℕ
  last_updated : ℤ
  confidence_avg : ℚ
deriving DecidableEq

/-- The full response dictionary assembled by `generate_predictions`. -/
structure Response where
  prediction_type : String
  entity_id : String
  time_horizon : ℕ
  predictions : List PredictionPoint
  insights : List String
  metadata : Metadata
deriving DecidableEq

/-- A pandas DataFrame as used by this service: a `date` column plus
named numeric columns; `none` cells model NaN. -/
structure Frame where
  dates : List ℤ
  cols : List (String × List (Option ℚ))
deriving DecidableEq

/-- `pd.DataFrame()`: the empty frame with no columns. -/
def Frame.emptyFrame : Frame := ⟨[], []⟩

/-- `len(df)`. -/
def Frame.nrows (f : Frame) : ℕ := f.dates.length

/-- `df.columns`: the date column (present on every frame built from
records) followed by the value columns; `pd.DataFrame()` has none. -/
def Frame.columns (f : Frame) : List String :=
  if f.cols.isEmpty && f.dates.isEmpty then [] else "date" :: f.cols.map Prod.fst

/-- Cells of one named column (`df[c]`), `[]` when the column is absent. -/
def Frame.getCol (f : Frame) (c : String) : List (Option ℚ) :=
  ((f.cols.find? (fun p => p.1 = c)).map Prod.snd).getD []

/-- Values of one named column (`df[c].values`).  The engine only reads
columns of frames already `fillna`-ed or `dropna`-ed, whose cells are all
present, so the 0 default for a NaN cell is never observable. -/
def Frame.colD (f : Frame) (c : String) : List ℚ :=
  (f.getCol c).map (fun o => o.getD 0)

/-- `df[c].mean()`: pandas skips NaN cells. -/
def Frame.colMean (f : Frame) (c : String) : ℚ := qMean ((f.getCol c).filterMap id)

/-- `df.fillna(0)`. -/
def Frame.fillna (f : Frame) : Frame :=
  ⟨f.dates, f.cols.map (fun c => (c.1, c.2.map (fun o => some (o.getD 0))))⟩

/-- Row selection by index list (used by `dropna`). -/
def Frame.selectRows (f : Frame) (idxs : List ℕ) : Frame :=
  ⟨idxs.map (fun i => f.dates.getD i 0),
   f.cols.map (fun c => (c.1, idxs.map (fun i => c.2.getD i none)))⟩

/-- `df.dropna()`: keep the rows in which every column cell is present. -/
def Frame.dropna (f : Frame) : Frame :=
  f.selectRows ((List.range f.nrows).filter
    (fun i => f.cols.all (fun c => (c.2.getD i none).isSome)))

/-- `series.shift(k)`: k leading NaNs, values displaced down, same length. -/
def shiftCol (k : ℕ) (l : List ℚ) : List (Option ℚ) :=
  List.replicate (min k l.length) none ++ (l.take (l.length - k)).map some

/-- `series.diff()`: first cell NaN, then successive differences. -/
def diffCol (l : List ℚ) : List (Option ℚ) :=
  match l with
  | [] => []
  | _ :: t => none :: (l.zip t).map (fun p => some (p.2 - p.1))

/-- The trailing window of size ≤ w ending at index i (`min_periods=1`). -/
def windowAt (l : List ℚ) (w i : ℕ) : List ℚ := (l.take (i + 1)).drop (i + 1 - w)

/-- `series.rolling(window=w, min_periods=1).mean()`. -/
def rollingMean (w : ℕ) (l : List ℚ) : List ℚ :=
  (List.range l.length).map (fun i => qMean (windowAt l w i))

/-- External, uninterpreted inputs of one pipeline run: calendar
accessors of pandas/datetime, the fitted sklearn regressor, numpy square
roots, the DGPT insight service, the clock, and flags recording which
caught-and-handled exceptions fire on this run. -/
structure Ext where
  month : ℤ → ℚ
  quarter : ℤ → ℚ
  day_of_month : ℤ → ℚ
  day_of_year : ℤ → ℚ
  week_of_year : ℤ → ℚ
  day_of_week : ℤ → ℚ
  sqrtQ : ℚ → ℚ
  r2 : ℚ
  rawPredict : List ℚ → ℚ
  trainRaises : Bool
  primaryRaises : Bool
  fallbackRaises : Bool
  fetchRaises : Bool
  aiInsights : List String
  asyncRaises : Bool
  staticRaises : Bool
  now : ℤ

/-- One raw inventory history record (date, quantity). -/
structure InventoryRecord where
  date : ℤ
  quantity : ℚ
deriving DecidableEq

/-- One raw expense record (date, amount). -/
structure ExpenseRecord where
  date : ℤ
  amount : ℚ
deriving DecidableEq

/-- One raw utilization record (date, utilized and available hours). -/
structure UtilizationRecord where
  date : ℤ
  utilized_hours : ℚ
  available_hours : ℚ
deriving DecidableEq

/-- One raw sales order record (date, total amount). -/
structure OrderRecord where
  date : ℤ
  total_amount : ℚ
deriving DecidableEq

/-- The raw data map returned by the ERP data fetcher, keyed by the four
domain-specific list fields. -/
structure RawData where
  history : List InventoryRecord := []
  expenses : List ExpenseRecord := []
  utilization_data : List UtilizationRecord := []
  orders : List OrderRecord := []
deriving DecidableEq

/-- Stable sort of records by ascending date (`df.sort_values('date')`;
the source's quicksort may order equal dates differently, which no
verified property observes). -/
def sortByDate {α : Type} (dateOf : α → ℤ) (l : List α) : List α :=
  l.insertionSort (fun a b => dateOf a ≤ dateOf b)

/-- `df.groupby('date')[v].sum().reset_index()` followed by
`sort_values('date')`: one row per distinct date in ascending order,
carrying the sum of the values at that date. -/
def groupSumBy (rows : List (ℤ × ℚ)) : List (ℤ × ℚ) :=
  (((rows.map Prod.fst).insertionSort (· ≤ ·)).dedup).map
    (fun d => (d, ((rows.filter (fun r => r.1 = d)).map Prod.snd).sum))

/-- FeatureEngineer._prepare_inventory_features. -/
def prepare_inventory_features (ext : Ext) (data : RawData) : Frame :=
  match data.history with
  | [] => Frame.emptyFrame
  | h =>
    let recs := sortByDate (fun r => r.date) h
    let dates := recs.map (fun r => r.date)
    let q : List ℚ := recs.map (fun r => r.quantity)
    Frame.dropna ⟨dates,
      [("quantity", q.map some),
       ("day_of_year", dates.map (fun d => some (ext.day_of_year d))),
       ("month", dates.map (fun d => some (ext.month d))),
       ("week_of_year", dates.map (fun d => some (ext.week_of_year d))),
       ("day_of_week", dates.map (fun d => some (ext.day_of_week d))),
       ("quantity_lag_1", shiftCol 1 q),
       ("quantity_lag_7", shiftCol 7 q),
       ("quantity_ma_7", (rollingMean 7 q).map some),
       ("quantity_ma_30", (rollingMean 30 q).map some),
       ("quantity_std_7", (List.range q.length).map (fun i =>
          let w := windowAt q 7 i
          some (if w.length < 2 then 0 else ext.sqrtQ (sampleVar w)))),
       ("quantity_trend", diffCol q)]⟩

/-- FeatureEngineer._prepare_budget_features. -/
def prepare_budget_features (ext : Ext) (data : RawData) : Frame :=
  match data.expenses with
  | [] => Frame.emptyFrame
  | e =>
    let daily := groupSumBy (e.map (fun r => (r.date, r.amount)))
    let dates := daily.map Prod.fst
    let a := daily.map Prod.snd
    Frame.fillna ⟨dates,
      [("amount", a.map some),
       ("day_of_month", dates.map (fun d => some (ext.day_of_month d))),
       ("month", dates.map (fun d => some (ext.month d))),
       ("quarter", dates.map (fun d => some (ext.quarter d))),
       ("day_of_week", dates.map (fun d => some (ext.day_of_week d))),
       ("amount_ma_7", (rollingMean 7 a).map some),
       ("amount_ma_30", (rollingMean 30 a).map some),
       ("amount_lag_1", shiftCol 1 a),
       ("amount_lag_7", shiftCol 7 a)]⟩

/-- FeatureEngineer._prepare_resource_features.  The rate is
`utilized_hours / available_hours.replace(0, 1)`, then `.fillna(0)`
(identity here: rational division is total) and `.clip(0, 1)`. -/
def prepare_resource_features (ext : Ext) (data : RawData) : Frame :=
  match data.utilization_data with
  | [] => Frame.emptyFrame
  | u =>
    let recs := sortByDate (fun r => r.date) u
    let dates := recs.map (fun r => r.date)
    let util := recs.map (fun r => r.utilized_hours)
    let avail := recs.map (fun r => r.available_hours)
    let rate := (util.zip avail).map
      (fun p => qmin 1 (qmax 0 (p.1 / (if p.2 = 0 then 1 else p.2))))
    Frame.fillna ⟨dates,
      [("utilized_hours", util.map some),
       ("available_hours", avail.map some),
       ("utilization_rate", rate.map some),
       ("day_of_week", dates.map (fun d => some (ext.day_of_week d))),
       ("month", dates.map (fun d => some (ext.month d))),
       ("quarter", dates.map (fun d => some (ext.quarter d))),
       ("util_ma_7", (rollingMean 7 rate).map some),
       ("util_ma_30", (rollingMean 30 rate).map some)]⟩

/-- FeatureEngineer._prepare_sales_features. -/
def prepare_sales_features (ext : Ext) (data : RawData) : Frame :=
  match data.orders with
  | [] => Frame.emptyFrame
  | o =>
    let daily := groupSumBy (o.map (fun r => (r.date, r.total_amount)))
    let dates := daily.map Prod.fst
    let s := daily.map Prod.snd
    Frame.fillna ⟨dates,
      [("total_amount", s.map some),
       ("day_of_week", dates.map (fun d => some (ext.day_of_week d))),
       ("month", dates.map (fun d => some (ext.month d))),
       ("quarter", dates.map (fun d => some (ext.quarter d))),
       ("day_of_month", dates.map (fun d => some (ext.day_of_month d))),
       ("sales_ma_7", (rollingMean 7 s).map some),
       ("sales_ma_30", (rollingMean 30 s).map some),
       ("sales_lag_1", shiftCol 1 s),
       ("sales_lag_7", shiftCol 7 s)]⟩

/-- FeatureEngineer.prepare_features: dispatch on the prediction type;
an unknown type raises ValueError which the surrounding handler turns
into an empty frame. -/
def prepare_features (ext : Ext) (data : RawData) (prediction_type : String) : Frame :=
  if prediction_type = "inventory" then prepare_inventory_features ext data
  else if prediction_type = "budget" then prepare_budget_features ext data
  else if prediction_type = "resource" then prepare_resource_features ext data
  else if prediction_type = "sales" then prepare_sales_features ext data
  else Frame.emptyFrame

/-- Config.MIN_DATA_POINTS. -/
def MIN_DATA_POINTS : ℕ := 5

/-- Config.BASE_CONFIDENCE. -/
def BASE_CONFIDENCE : ℚ := 8 / 10

/-- Config.CONFIDENCE_DECAY. -/
def CONFIDENCE_DECAY : ℚ := 1 / 100

/-- UniversalMLModel.train: fewer than 2 rows, or an internal sklearn
exception, leaves the model untrained with score 0.0; otherwise the R²
score is clamped to [0, 1] and the model is trained.  Returns
(score, is_trained). -/
def trainResult (ext : Ext) (X : List (List ℚ)) : ℚ × Bool :=
  if X.length < 2 then (0, false)
  else if ext.trainRaises then (0, false)
  else (qmax 0 (qmin 1 ext.r2), true)

/-- UniversalMLModel.predict: zeros when untrained, otherwise the fitted
regressor's per-row output floored at 0 (`np.maximum(predictions, 0)`). -/
def modelPredict (ext : Ext) (trained : Bool) (X : List (List ℚ)) : List ℚ :=
  if trained then X.map (fun row => qmax (ext.rawPredict row) 0)
  else List.replicate X.length 0

/-- SimpleMovingAverage.predict with the default window of 7. -/
def movingAveragePredict (window : ℕ) (data : List ℚ) (steps : ℕ) : List ℚ :=
  if data.length < window then
    List.replicate steps (if data.isEmpty then 0 else qMean data)
  else List.replicate steps (qMean (data.drop (data.length - window)))

/-- TrendModel.predict: with fewer than 2 points, repeat `data[0]` (or
0.0 on empty input); otherwise fit slope and intercept by least squares
over the index sequence and project `steps` points ahead, floored at 0.
The source's except-branch cannot fire: for n ≥ 2 the denominator
`np.sum((x - mean(x))**2)` is a positive float and numpy raises nothing. -/
def trendPredict (data : List ℚ) (steps : ℕ) : List ℚ :=
  if data.length < 2 then List.replicate steps (data.headD 0)
  else
    let x : List ℚ := (List.range data.length).map (fun (i : ℕ) => (i : ℚ))
    let xm := qMean x
    let ym := qMean data
    let slope := ((x.zip data).map (fun p => (p.1 - xm) * (p.2 - ym))).sum /
      ((x.map (fun xi => (xi - xm) ^ 2)).sum)
    let intercept := ym - slope * xm
    (((List.range steps).map (fun (k : ℕ) => (data.length : ℚ) + (k : ℚ))).map
      (fun fx => qmax (slope * fx + intercept) 0))

/-- PredictionEngine._get_feature_columns. -/
def get_feature_columns (f : Frame) (prediction_type : String) : List String :=
  let exclude := "date" ::
    (if prediction_type = "inventory" then ["quantity"]
     else if prediction_type = "budget" then ["amount"]
     else if prediction_type = "resource" then
       ["utilization_rate", "available_hours", "utilized_hours"]
     else if prediction_type = "sales" then ["total_amount"]
     else [])
  f.columns.filter (fun c => ¬ exclude.contains c)

/-- PredictionEngine._get_target_column ("" for unknown types). -/
def get_target_column (prediction_type : String) : String :=
  if prediction_type = "inventory" then "quantity"
  else if prediction_type = "budget" then "amount"
  else if prediction_type = "resource" then "utilization_rate"
  else if prediction_type = "sales" then "total_amount"
  else ""

/-- PredictionEngine._calculate_confidence. -/
def calculate_confidence (step : ℕ) (time_horizon : ℕ) (model_score : ℚ) : ℚ :=
  let score_factor := if 0 < model_score then qmax (1 / 2) model_score else 6 / 10
  let time_factor := qmax (1 / 2) (BASE_CONFIDENCE - (step : ℚ) * CONFIDENCE_DECAY)
  qmax (1 / 2) (qmin (95 / 100) (score_factor * time_factor))

/-- The column names treated as calendar-derived by
FeatureEngineer.create_future_features. -/
def timeFeatureNames : List String :=
  ["day_of_year", "month", "week_of_year", "day_of_week", "day_of_month", "quarter"]

/-- Boolean list-prefix test (on characters). -/
def isPrefixOfL : List Char → List Char → Bool
  | [], _ => true
  | _ :: _, [] => false
  | a :: as, b :: bs => a = b && isPrefixOfL as bs

/-- Python `needle in hay` substring test, on character lists. -/
def containsSub : (hay : List Char) → (needle : List Char) → Bool
  | hay, needle =>
    isPrefixOfL needle hay ||
      match hay with
      | [] => false
      | _ :: t => containsSub t needle

/-- Python `keyword in col` for strings. -/
def strContains (hay needle : String) : Bool := containsSub hay.data needle.data

/-- The per-column fill value for a future date in
create_future_features: last observed value for lag/ma/std/trend
columns, column mean otherwise, 0 for a column absent from the frame. -/
def futureVal (f : Frame) (col : String) : ℚ :=
  if (Frame.columns f).contains col then
    if ["lag", "ma", "std", "trend"].any (fun k => strContains col k) then
      (((f.getCol col).getLast?).getD none).getD 0
    else if (f.getCol col).isEmpty then 0
    else f.colMean col
  else 0

/-- FeatureEngineer.create_future_features: empty output on an empty
frame or empty date list, otherwise one feature row per future date. -/
def create_future_features (ext : Ext) (f : Frame) (future_dates : List ℤ)
    (feature_cols : List String) : List (List ℚ) :=
  if f.nrows = 0 ∨ future_dates.isEmpty then []
  else future_dates.map (fun d =>
    (if feature_cols.contains "day_of_year" then [ext.day_of_year d] else []) ++
    (if feature_cols.contains "month" then [ext.month d] else []) ++
    (if feature_cols.contains "week_of_year" then [ext.week_of_year d] else []) ++
    (if feature_cols.contains "day_of_week" then [ext.day_of_week d] else []) ++
    (if feature_cols.contains "day_of_month" then [ext.day_of_month d] else []) ++
    (if feature_cols.contains "quarter" then [ext.quarter d] else []) ++
    feature_cols.filterMap (fun col =>
      if timeFeatureNames.contains col then none else some (futureVal f col)))

/-- `df[feature_cols].fillna(0).values`: the training matrix. -/
def Frame.featureMatrix (f : Frame) (cols : List String) : List (List ℚ) :=
  (List.range f.nrows).map (fun i =>
    cols.map (fun c => ((f.getCol c).getD i none).getD 0))

/-- PredictionEngine._fallback_predictions: linear-trend projection of
the raw target column when present and non-empty, flat 100.0 otherwise,
each point dated from `datetime.now()` at constant confidence 0.6; the
except-branch (flat 100.0 at confidence 0.5) is kept for path fidelity. -/
def fallback_predictions (ext : Ext) (f : Frame) (prediction_type : String)
    (time_horizon : ℕ) : List PredictionPoint :=
  if ext.fallbackRaises then
    (List.range time_horizon).map
      (fun (i : ℕ) => ⟨ext.now + ((i : ℤ) + 1), 100, 1 / 2⟩)
  else
    let target_col := get_target_column prediction_type
    let trend_predictions :=
      if (Frame.columns f).contains target_col ∧ 0 < f.nrows then
        trendPredict (f.colD target_col) time_horizon
      else List.replicate time_horizon (100 : ℚ)
    trend_predictions.enum.map
      (fun p => ⟨ext.now + ((p.1 : ℤ) + 1), round2 p.2, 6 / 10⟩)

/-- PredictionEngine._create_predictions: primary trainable-model path
with fallbacks on insufficient data, missing features/target, empty
future-feature matrix, or any caught exception. -/
def create_predictions (ext : Ext) (f : Frame) (prediction_type : String)
    (time_horizon : ℕ) : List PredictionPoint :=
  if f.nrows < MIN_DATA_POINTS then
    fallback_predictions ext f prediction_type time_horizon
  else if ext.primaryRaises then
    fallback_predictions ext f prediction_type time_horizon
  else
    let feature_cols := get_feature_columns f prediction_type
    let target_col := get_target_column prediction_type
    if feature_cols.isEmpty ∨ ¬ (Frame.columns f).contains target_col then
      fallback_predictions ext f prediction_type time_horizon
    else
      let X := f.featureMatrix feature_cols
      let st := trainResult ext X
      let last_date := (f.dates.max?).getD 0
      let future_dates := (List.range time_horizon).map
        (fun (i : ℕ) => last_date + ((i : ℤ) + 1))
      let future_features := create_future_features ext f future_dates feature_cols
      if future_features.length = 0 then
        fallback_predictions ext f prediction_type time_horizon
      else
        let future_predictions := modelPredict ext st.2 future_features
        (future_dates.zip future_predictions).enum.map (fun p =>
          ⟨p.2.1, round2 p.2.2, round2 (calculate_confidence p.1 time_horizon st.1)⟩)

/-- PredictionEngine._create_metadata: always reports the primary
model's type string; `confidence_avg` is the rounded mean confidence. -/
def create_metadata (ext : Ext) (f : Frame) (preds : List PredictionPoint) : Metadata :=
  ⟨"linear_regression", f.nrows, ext.now,
   round2 (if preds.isEmpty then 0 else qMean (preds.map (fun p => p.confidence)))⟩

/-- Python `f"{x:.1f}"`: one decimal place (half-up here; Python's
half-even tie-breaking is never observed by the verified properties). -/
def fmt1 (q : ℚ) : String :=
  let n : ℤ := pythonRound (q * 10)
  (if n < 0 then "-" else "") ++ toString (n.natAbs / 10) ++ "." ++ toString (n.natAbs % 10)

/-- Digit grouping for `f"{x:,.0f}"`, on a reversed digit list. -/
def groupRev : (ds : List Char) → (k : ℕ) → List Char
  | [], _ => []
  | c :: rest, k =>
    if k = 3 then c :: ((if rest.isEmpty then [] else [',']) ++ groupRev rest 1)
    else c :: groupRev rest (k + 1)

/-- Python `f"{x:,.0f}"`: round to an integer, comma-group thousands. -/
def fmtMoney (q : ℚ) : String :=
  let n : ℤ := pythonRound q
  (if n < 0 then "-" else "") ++
    String.mk ((groupRev (toString n.natAbs).data.reverse 1).reverse)

/-- InsightGenerator._analyze_trend: trend phrasing per domain, guarded
by list length ≥ 2 and a non-zero first predicted value. -/
def analyze_trend (preds : List PredictionPoint) (prediction_type : String) : List String :=
  if preds.length < 2 then []
  else
    let first_value := (preds.headD default).predicted_value
    let last_value := (preds.getLastD default).predicted_value
    if first_value = 0 then []
    else
      let trend_pct := (last_value - first_value) / first_value * 100
      if prediction_type = "inventory" then
        if trend_pct > 10 then
          ["Expected " ++ fmt1 trend_pct ++ "% increase in demand over forecast period",
           "Consider increasing inventory levels to meet growing demand"]
        else if trend_pct < -10 then
          ["Expected " ++ fmt1 |trend_pct| ++ "% decrease in demand",
           "Consider reducing inventory to avoid overstocking"]
        else
          ["Demand expected to remain stable",
           "Current inventory levels appear adequate"]
      else if prediction_type = "budget" then
        if trend_pct > 15 then
          ["Budget spending trending " ++ fmt1 trend_pct ++ "% higher",
           "Review spending controls and budget allocation"]
        else if trend_pct < -15 then
          ["Budget spending trending " ++ fmt1 |trend_pct| ++ "% lower",
           "Potential opportunity for budget reallocation"]
        else ["Budget spending on track with historical patterns"]
      else if prediction_type = "resource" then
        if trend_pct > 10 then
          ["Resource utilization expected to increase by " ++ fmt1 trend_pct ++ "%",
           "Consider capacity planning and resource allocation"]
        else if trend_pct < -10 then
          ["Resource utilization expected to decrease by " ++ fmt1 |trend_pct| ++ "%",
           "Potential opportunity for resource optimization"]
        else ["Resource utilization expected to remain stable"]
      else if prediction_type = "sales" then
        if trend_pct > 10 then
          ["Sales revenue expected to grow by " ++ fmt1 trend_pct ++ "%",
           "Positive growth trend - consider scaling operations"]
        else if trend_pct < -10 then
          ["Sales revenue expected to decline by " ++ fmt1 |trend_pct| ++ "%",
           "Review sales strategy and market conditions"]
        else ["Sales revenue expected to remain steady"]
      else []

/-- InsightGenerator._analyze_confidence (callers pass a non-empty list,
so `min()` of the confidences is defined; we default it to 0). -/
def analyze_confidence (preds : List PredictionPoint) : List String :=
  let avg_confidence := qMean (preds.map (fun p => p.confidence))
  let min_confidence := (qListMin (preds.map (fun p => p.confidence))).getD 0
  (if avg_confidence > 85 / 100 then
    ["High confidence predictions based on strong historical patterns"]
   else if avg_confidence < 7 / 10 then
    ["Prediction confidence is moderate - consider additional data collection"]
   else []) ++
  (if min_confidence < 6 / 10 then
    ["Long-term predictions have lower confidence - monitor closely"]
   else [])

/-- InsightGenerator._analyze_historical_context: predicted mean and
standard deviation against the historical target column. -/
def analyze_historical_context (ext : Ext) (preds : List PredictionPoint)
    (historical : Frame) (prediction_type : String) : List String :=
  let target_col := get_target_column prediction_type
  if ¬ (Frame.columns historical).contains target_col then []
  else
    let historical_values := historical.colD target_col
    let predicted_values := preds.map (fun p => p.predicted_value)
    let hist_avg := qMean historical_values
    let pred_avg := qMean predicted_values
    let hist_std := ext.sqrtQ (popVar historical_values)
    let pred_std := ext.sqrtQ (popVar predicted_values)
    (if pred_avg > hist_avg * (12 / 10) then
      ["Predicted values significantly higher than historical average"]
     else if pred_avg < hist_avg * (8 / 10) then
      ["Predicted values significantly lower than historical average"]
     else []) ++
    (if pred_std > hist_std * (3 / 2) then
      ["Increased volatility expected compared to historical patterns"]
     else if pred_std < hist_std * (1 / 2) then
      ["Lower volatility expected - more stable period ahead"]
     else [])

/-- InsightGenerator._get_type_specific_insights.  In the week-over-week
test, Python divides by a float `weekly_avg`: with `weekly_avg == 0` the
quotient is inf (difference non-zero, condition holds) or nan (condition
fails); the branch on `weekly = 0` reproduces that float semantics. -/
def type_specific_insights (preds : List PredictionPoint)
    (prediction_type : String) : List String :=
  let values := preds.map (fun p => p.predicted_value)
  if prediction_type = "inventory" then
    let max_demand := (qListMax values).getD 0
    let min_demand := (qListMin values).getD 0
    (if max_demand > min_demand * 2 then
      ["High demand variability - consider flexible inventory strategy"]
     else []) ++
    (if 7 ≤ values.length then
      (if 14 ≤ values.length then
        (let weekly_avg := qMean (values.take 7)
         let second_week_avg := qMean ((values.drop 7).take 7)
         if (if weekly_avg = 0 then ¬ second_week_avg = 0
             else |second_week_avg - weekly_avg| / weekly_avg > 1 / 5) then
          ["Weekly demand patterns detected - optimize replenishment timing"]
         else [])
       else [])
     else [])
  else if prediction_type = "budget" then
    if 30 ≤ values.length then
      ["Total predicted spending for period: $" ++ fmtMoney values.sum]
    else []
  else if prediction_type = "sales" then
    if 30 ≤ values.length then
      ["Projected revenue for period: $" ++ fmtMoney values.sum]
    else []
  else []

/-- InsightGenerator._generate_static_insights: trend, confidence,
historical-context and domain-specific insights in order, capped at 6;
its except-branch yields the single degraded-operation string. -/
def generate_static_insights (ext : Ext) (preds : List PredictionPoint)
    (prediction_type : String) (historical : Option Frame) : List String :=
  if ext.staticRaises then
    ["Unable to generate detailed insights - basic trend analysis applied"]
  else if preds.isEmpty then ["Insufficient data for insights"]
  else
    (analyze_trend preds prediction_type ++
     analyze_confidence preds ++
     (match historical with
      | some h => if h.nrows ≠ 0 then
          analyze_historical_context ext preds h prediction_type else []
      | none => []) ++
     type_specific_insights preds prediction_type).take 6

/-- InsightGenerator.generate_insights_async (and its thin
generate_insights wrapper): AI insights when the DGPT call returned a
non-empty list, otherwise the static pipeline; capped at 6; any caught
exception falls back to the static generator. -/
def generate_insights_async (ext : Ext) (preds : List PredictionPoint)
    (prediction_type : String) (historical : Option Frame) : List String :=
  if ext.asyncRaises then
    generate_static_insights ext preds prediction_type historical
  else if preds.isEmpty then ["Insufficient data for insights"]
  else if ¬ ext.aiInsights.isEmpty then ext.aiInsights.take 6
  else (generate_static_insights ext preds prediction_type historical).take 6

/-- PredictionEngine._generate_fallback_predictions: the total-pipeline
fallback response of flat 100.0 predictions at confidence 0.5 dated from
now, two explanatory insights, and fallback metadata. -/
def generate_fallback_predictions (ext : Ext) (prediction_type entity_id : String)
    (time_horizon : ℕ) (error_msg : String) : Response :=
  ⟨prediction_type, entity_id, time_horizon,
   (List.range time_horizon).map (fun (i : ℕ) => ⟨ext.now + ((i : ℤ) + 1), 100, 1 / 2⟩),
   ["Unable to generate detailed insights: " ++ error_msg,
    "Using basic trend analysis"],
   ⟨"fallback", 0, ext.now, 1 / 2⟩⟩

/-- PredictionEngine.generate_predictions: fetch, featurize, predict,
build metadata and insights; a failed data fetch (the one live source of
an unhandled exception in the try-block) routes to the total-pipeline
fallback. -/
def generate_predictions (ext : Ext) (raw : RawData)
    (prediction_type entity_id : String) (time_horizon : ℕ) : Response :=
  if ext.fetchRaises then
    generate_fallback_predictions ext prediction_type entity_id time_horizon
      "Failed to fetch ERP data"
  else
    let f := prepare_features ext raw prediction_type
    let preds := create_predictions ext f prediction_type time_horizon
    let md := create_metadata ext f preds
    let insights := generate_insights_async ext preds prediction_type (some f)
    ⟨prediction_type, entity_id, time_horizon, preds, insights, md⟩

/-- Clamp of x to [lo, hi], as written in the specification. -/
def clampQ (lo hi x : ℚ) : ℚ := max lo (min hi x)

/-- The confidence formula exactly as the specification states it:
score and time factors combined and clamped to [0.5, 0.95]. -/
def confidenceSpec (step : ℕ) (fit_score : ℚ) : ℚ :=
  let score_factor := if 0 < fit_score then max (1 / 2) fit_score else 6 / 10
  let time_factor := max (1 / 2) (8 / 10 - (step : ℚ) * (1 / 100))
  clampQ (1 / 2) (95 / 100) (score_factor * time_factor)

/-- The linear-trend fallback exactly as the specification states it:
ordinary least-squares slope and intercept over the index sequence (in
raw-moment form), projections floored at 0; with fewer than 2 points the
last known value (or 0) is repeated. -/
def trendModelSpec (data : List ℚ) (steps : ℕ) : List ℚ :=
  if data.length < 2 then List.replicate steps ((data.getLast?).getD 0)
  else
    let n : ℚ := (data.length : ℚ)
    let xs : List ℚ := (List.range data.length).map (fun (i : ℕ) => (i : ℚ))
    let sx := xs.sum
    let sy := data.sum
    let sxy := ((xs.zip data).map (fun p => p.1 * p.2)).sum
    let sxx := (xs.map (fun v => v ^ 2)).sum
    let slope := (n * sxy - sx * sy) / (n * sxx - sx ^ 2)
    let intercept := (sy - slope * sx) / n
    (List.range steps).map (fun (k : ℕ) => max (slope * (n + (k : ℚ)) + intercept) 0)

/-- The resource utilization rate as the specification claims it:
`utilized_hours / max(available_hours, 1)`, clamped to [0, 1]. -/
def utilizationRateSpec (utilized available : ℚ) : ℚ :=
  clampQ 0 1 (utilized / max available 1)

/-- A concrete external environment for evaluating the pipeline on
explicit inputs: calendar accessors and square root constantly 0, an
untrained-like regressor, no exceptions, no AI insights, clock at day 0. -/
def extDummy : Ext :=
  ⟨fun _ => 0, fun _ => 0, fun _ => 0, fun _ => 0, fun _ => 0, fun _ => 0,
   fun _ => 0, 0, fun _ => 0, false, false, false, false, [], false, false, 0⟩

/-! ### Support lemmas -/

theorem qmin_eq (a b : ℚ) : qmin a b = min a b := by
  rw [qmin, min_def]

theorem qmax_eq (a b : ℚ) : qmax a b = max a b := by
  rw [qmax, max_def]
  rcases le_total a b with h | h
  · rcases eq_or_lt_of_le h with rfl | hlt
    · simp
    · rw [if_pos h, if_neg (not_le_of_lt hlt)]
  · rcases eq_or_lt_of_le h with rfl | hlt
    · simp
    · rw [if_pos h, if_neg (not_le_of_lt hlt)]

theorem ratFloor_eq_intFloor (q : ℚ) : q.floor = ⌊q⌋ := by
  rw [Rat.floor_def, Rat.floor_def']

theorem pythonRound_ge_floor (q : ℚ) : ⌊q⌋ ≤ pythonRound q := by
  simp only [pythonRound, ratFloor_eq_intFloor]
  split_ifs <;> omega

theorem pythonRound_le_floor_add_one (q : ℚ) : pythonRound q ≤ ⌊q⌋ + 1 := by
  simp only [pythonRound, ratFloor_eq_intFloor]
  split_ifs <;> omega

theorem pythonRound_mono {x y : ℚ} (h : x ≤ y) : pythonRound x ≤ pythonRound y := by
  rcases lt_or_ge ⌊x⌋ ⌊y⌋ with hf | hf
  · calc pythonRound x ≤ ⌊x⌋ + 1 := pythonRound_le_floor_add_one x
      _ ≤ ⌊y⌋ := by omega
      _ ≤ pythonRound y := pythonRound_ge_floor y
  · have hfe : ⌊x⌋ = ⌊y⌋ := le_antisymm (Int.floor_le_floor h) hf
    have hfr : x - (⌊x⌋ : ℚ) ≤ y - (⌊y⌋ : ℚ) := by
      rw [← hfe]; linarith
    simp only [pythonRound, ratFloor_eq_intFloor]
    rw [hfe]
    split_ifs <;> first | omega | (exfalso; linarith)

theorem pythonRound_intCast (n : ℤ) : pythonRound (n : ℚ) = n := by
  simp only [pythonRound, ratFloor_eq_intFloor, Int.floor_intCast]
  norm_num

theorem pythonRound_nonneg {q : ℚ} (h : 0 ≤ q) : 0 ≤ pythonRound q := by
  have h1 : (0 : ℤ) ≤ ⌊q⌋ := Int.floor_nonneg.2 h
  have h2 := pythonRound_ge_floor q
  omega

theorem round2_nonneg {q : ℚ} (h : 0 ≤ q) : 0 ≤ round2 q := by
  unfold round2
  have := pythonRound_nonneg (q := q * 100) (by positivity)
  positivity

theorem round2_mono {x y : ℚ} (h : x ≤ y) : round2 x ≤ round2 y := by
  unfold round2
  have := pythonRound_mono (x := x * 100) (y := y * 100) (by linarith)
  have hc : ((pythonRound (x * 100) : ℚ)) ≤ ((pythonRound (y * 100) : ℚ)) := by
    exact_mod_cast this
  linarith

theorem round2_intCast (n : ℤ) : round2 (n : ℚ) = n := by
  unfold round2
  rw [show ((n : ℚ) * 100) = ((n * 100 : ℤ) : ℚ) by push_cast; ring, pythonRound_intCast]
  push_cast
  ring

theorem round2_half : round2 (1 / 2) = 1 / 2 := by
  with_unfolding_all decide

theorem round2_95c : round2 (95 / 100) = 95 / 100 := by
  with_unfolding_all decide

theorem round2_in_unit_bounds {q : ℚ} (h1 : 1 / 2 ≤ q) (h2 : q ≤ 95 / 100) :
    1 / 2 ≤ round2 q ∧ round2 q ≤ 95 / 100 := by
  constructor
  · calc (1 / 2 : ℚ) = round2 (1 / 2) := round2_half.symm
      _ ≤ round2 q := round2_mono h1
  · calc round2 q ≤ round2 (95 / 100) := round2_mono h2
      _ = 95 / 100 := round2_95c

theorem calculate_confidence_bounds (step time_horizon : ℕ) (model_score : ℚ) :
    1 / 2 ≤ calculate_confidence step time_horizon model_score ∧
      calculate_confidence step time_horizon model_score ≤ 95 / 100 := by
  unfold calculate_confidence
  rw [qmax_eq, qmin_eq]
  refine ⟨le_max_left _ _, max_le (by norm_num) (min_le_left _ _)⟩

theorem enumMap_fst_eq {α β : Type} (l : List α) (g : ℕ → β) :
    l.enum.map (fun p => g p.1) = (List.range l.length).map g := by
  have h1 : l.enum.map (fun p => g p.1) = (l.enum.map Prod.fst).map g := by
    rw [List.map_map]; rfl
  rw [h1, List.enum_map_fst]

theorem enumMap_snd_eq {α β : Type} (l : List α) (g : α → β) :
    l.enum.map (fun p => g p.2) = l.map g := by
  have h1 : l.enum.map (fun p => g p.2) = (l.enum.map Prod.snd).map g := by
    rw [List.map_map]; rfl
  rw [h1, List.enum_map_snd]

theorem chain_consecutive_range (base : ℤ) (n : ℕ) :
    List.Chain' (fun a b => b = a + 1)
      ((List.range n).map (fun (i : ℕ) => base + ((i : ℤ) + 1))) := by
  refine (List.chain'_map (fun i : ℕ => base + ((i : ℤ) + 1))).mpr ?_
  cases n with
  | zero => simp
  | succ m =>
    refine (List.chain'_range_succ _ m).mpr ?_
    intro i _
    push_cast
    ring

theorem trendPredict_length (data : List ℚ) (steps : ℕ) :
    (trendPredict data steps).length = steps := by
  unfold trendPredict
  split <;> simp

theorem trendPredict_nonneg {data : List ℚ} (hd : ∀ v ∈ data, 0 ≤ v)
    (steps : ℕ) : ∀ x ∈ trendPredict data steps, 0 ≤ x := by
  intro x hx
  unfold trendPredict at hx
  split at hx
  · rw [List.eq_of_mem_replicate hx]
    cases data with
    | nil => simp
    | cons a t => exact hd a (by simp)
  · simp only [List.mem_map] at hx
    obtain ⟨fx, _, rfl⟩ := hx
    rw [qmax_eq]
    exact le_max_right _ _

theorem fallback_predictions_length (ext : Ext) (f : Frame)
    (prediction_type : String) (time_horizon : ℕ) :
    (fallback_predictions ext f prediction_type time_horizon).length = time_horizon := by
  unfold fallback_predictions
  split
  · simp
  · dsimp only
    split
    · simp [trendPredict_length]
    · simp

theorem map_date_fallback (ext : Ext) (f : Frame) (prediction_type : String)
    (time_horizon : ℕ) :
    (fallback_predictions ext f prediction_type time_horizon).map
        (fun p => p.date) =
      (List.range time_horizon).map (fun (i : ℕ) => ext.now + ((i : ℤ) + 1)) := by
  unfold fallback_predictions
  split
  · rw [List.map_map]
    rfl
  · have hlen : ∀ l : List ℚ, l.length = time_horizon →
        (l.enum.map (fun p =>
            (⟨ext.now + ((p.1 : ℤ) + 1), round2 p.2, 6 / 10⟩ : PredictionPoint))).map
          (fun p => p.date) =
        (List.range time_horizon).map (fun (i : ℕ) => ext.now + ((i : ℤ) + 1)) := by
      intro l hl
      rw [List.map_map]
      have : ((fun p : PredictionPoint => p.date) ∘
          (fun p : ℕ × ℚ =>
            (⟨ext.now + ((p.1 : ℤ) + 1), round2 p.2, 6 / 10⟩ : PredictionPoint))) =
          fun p : ℕ × ℚ => ext.now + ((p.1 : ℤ) + 1) := rfl
      rw [this, enumMap_fst_eq l (fun i : ℕ => ext.now + ((i : ℤ) + 1)), hl]
    dsimp only
    split
    · exact hlen _ (trendPredict_length _ _)
    · exact hlen _ (by simp)

theorem fallback_predictions_chain (ext : Ext) (f : Frame)
    (prediction_type : String) (time_horizon : ℕ) :
    List.Chain' (fun a b => b.date = a.date + 1)
      (fallback_predictions ext f prediction_type time_horizon) := by
  have h := map_date_fallback ext f prediction_type time_horizon
  have hc := chain_consecutive_range ext.now time_horizon
  rw [← h, List.chain'_map] at hc
  exact hc

theorem modelPredict_length (ext : Ext) (trained : Bool) (X : List (List ℚ)) :
    (modelPredict ext trained X).length = X.length := by
  unfold modelPredict
  split <;> simp

theorem create_future_features_length_cases (ext : Ext) (f : Frame)
    (future_dates : List ℤ) (cols : List String) :
    (create_future_features ext f future_dates cols).length = 0 ∨
      (create_future_features ext f future_dates cols).length = future_dates.length := by
  unfold create_future_features
  split
  · left; simp
  · right; simp

theorem create_predictions_length (ext : Ext) (f : Frame)
    (prediction_type : String) (time_horizon : ℕ) :
    (create_predictions ext f prediction_type time_horizon).length = time_horizon := by
  unfold create_predictions
  split
  · exact fallback_predictions_length ext f prediction_type time_horizon
  split
  · exact fallback_predictions_length ext f prediction_type time_horizon
  dsimp only
  split
  · exact fallback_predictions_length ext f prediction_type time_horizon
  split
  · exact fallback_predictions_length ext f prediction_type time_horizon
  rename_i hne
  have hff := create_future_features_length_cases ext f
    ((List.range time_horizon).map (fun (i : ℕ) => (f.dates.max?).getD 0 + ((i : ℤ) + 1)))
    (get_feature_columns f prediction_type)
  rcases hff with hff | hff
  · exact absurd hff hne
  · simp [modelPredict_length, hff]

theorem create_predictions_chain (ext : Ext) (f : Frame)
    (prediction_type : String) (time_horizon : ℕ) :
    List.Chain' (fun a b => b.date = a.date + 1)
      (create_predictions ext f prediction_type time_horizon) := by
  unfold create_predictions
  split
  · exact fallback_predictions_chain ext f prediction_type time_horizon
  split
  · exact fallback_predictions_chain ext f prediction_type time_horizon
  dsimp only
  split
  · exact fallback_predictions_chain ext f prediction_type time_horizon
  split
  · exact fallback_predictions_chain ext f prediction_type time_horizon
  rename_i hne
  set base := (f.dates.max?).getD 0 with hbase
  set fd := (List.range time_horizon).map (fun (i : ℕ) => base + ((i : ℤ) + 1)) with hfd
  set ff := create_future_features ext f fd (get_feature_columns f prediction_type) with hffdef
  have hff : ff.length = fd.length := by
    rcases create_future_features_length_cases ext f fd (get_feature_columns f prediction_type) with h | h
    · exact absurd h hne
    · exact h
  set fp := modelPredict ext (trainResult ext (f.featureMatrix (get_feature_columns f prediction_type))).2 ff with hfp
  have hlen : fd.length ≤ fp.length := by
    rw [hfp, modelPredict_length, hff]
  have hdates : (((fd.zip fp).enum.map (fun p =>
      (⟨p.2.1, round2 p.2.2,
        round2 (calculate_confidence p.1 time_horizon
          (trainResult ext (f.featureMatrix (get_feature_columns f prediction_type))).1)⟩ :
        PredictionPoint))).map (fun p => p.date)) = fd := by
    rw [List.map_map]
    have hcomp : ((fun p : PredictionPoint => p.date) ∘
        (fun p : ℕ × (ℤ × ℚ) =>
          (⟨p.2.1, round2 p.2.2,
            round2 (calculate_confidence p.1 time_horizon
              (trainResult ext (f.featureMatrix (get_feature_columns f prediction_type))).1)⟩ :
            PredictionPoint))) = fun p : ℕ × (ℤ × ℚ) => p.2.1 := rfl
    rw [hcomp, enumMap_snd_eq ((fd.zip fp)) (fun q : ℤ × ℚ => q.1), List.map_fst_zip _ _ hlen]
  have hchain : List.Chain' (fun a b => b = a + 1) fd := by
    rw [hfd]
    exact chain_consecutive_range base time_horizon
  rw [← hdates, List.chain'_map] at hchain
  exact hchain

theorem generate_fallback_length (ext : Ext) (prediction_type entity_id : String)
    (time_horizon : ℕ) (error_msg : String) :
    (generate_fallback_predictions ext prediction_type entity_id time_horizon
      error_msg).predictions.length = time_horizon := by
  unfold generate_fallback_predictions
  simp

theorem generate_fallback_chain (ext : Ext) (prediction_type entity_id : String)
    (time_horizon : ℕ) (error_msg : String) :
    List.Chain' (fun a b => b.date = a.date + 1)
      (generate_fallback_predictions ext prediction_type entity_id time_horizon
        error_msg).predictions := by
  unfold generate_fallback_predictions
  have hdates : (((List.range time_horizon).map
      (fun (i : ℕ) => (⟨ext.now + ((i : ℤ) + 1), 100, 1 / 2⟩ : PredictionPoint))).map
        (fun p => p.date)) =
      (List.range time_horizon).map (fun (i : ℕ) => ext.now + ((i : ℤ) + 1)) := by
    rw [List.map_map]
    rfl
  have hchain := chain_consecutive_range ext.now time_horizon
  rw [← hdates, List.chain'_map] at hchain
  exact hchain

/-- C1: for every valid request (domain among the four, non-empty
entity id, horizon between 1 and 90), the response carries exactly
`time_horizon` predictions whose dates are strictly increasing
consecutive calendar days, over every external environment — hence on
the primary path, the fallback-model path, and the pipeline-fallback
path alike. -/
theorem c1_predictions_length_and_consecutive_dates (ext : Ext) (raw : RawData)
    (prediction_type entity_id : String) (time_horizon : ℕ)
    (hdom : prediction_type ∈ ["inventory", "budget", "resource", "sales"])
    (hent : entity_id ≠ "") (h1 : 1 ≤ time_horizon) (h2 : time_horizon ≤ 90) :
    (generate_predictions ext raw prediction_type entity_id time_horizon).predictions.length =
        time_horizon ∧
      List.Chain' (fun a b => b.date = a.date + 1)
        (generate_predictions ext raw prediction_type entity_id time_horizon).predictions := by
  unfold generate_predictions
  split
  · exact ⟨generate_fallback_length _ _ _ _ _, generate_fallback_chain _ _ _ _ _⟩
  · exact ⟨create_predictions_length _ _ _ _, create_predictions_chain _ _ _ _⟩

/-- C1 witness: the property instantiated on a concrete empty-data
inventory request with horizon 30. -/
theorem c1_witness :
    ("inventory" ∈ ["inventory", "budget", "resource", "sales"] ∧
      "SKU001" ≠ "" ∧ 1 ≤ 30 ∧ 30 ≤ 90) ∧
    ((generate_predictions extDummy {} "inventory" "SKU001" 30).predictions.length = 30 ∧
      List.Chain' (fun a b => b.date = a.date + 1)
        (generate_predictions extDummy {} "inventory" "SKU001" 30).predictions) :=
  ⟨by decide,
   c1_predictions_length_and_consecutive_dates extDummy {} "inventory" "SKU001" 30
     (by decide) (by decide) (by decide) (by decide)⟩

/-- C5: the confidence scorer returns exactly the clamped product of the
score factor and the linear time-decay factor of the specification;
consequently it always lies in [0.5, 0.95] and is non-increasing in the
step for a fixed fit score. -/
theorem c5_confidence_formula (step time_horizon : ℕ) (fit_score : ℚ) (step' : ℕ) :
    calculate_confidence step time_horizon fit_score = confidenceSpec step fit_score ∧
      1 / 2 ≤ calculate_confidence step time_horizon fit_score ∧
      calculate_confidence step time_horizon fit_score ≤ 95 / 100 ∧
      (step ≤ step' →
        calculate_confidence step' time_horizon fit_score ≤
          calculate_confidence step time_horizon fit_score) := by
  refine ⟨?_, (calculate_confidence_bounds step time_horizon fit_score).1,
    (calculate_confidence_bounds step time_horizon fit_score).2, ?_⟩
  · simp only [calculate_confidence, confidenceSpec, clampQ, qmax_eq, qmin_eq,
      BASE_CONFIDENCE, CONFIDENCE_DECAY]
  · intro hs
    simp only [calculate_confidence, qmax_eq, qmin_eq, BASE_CONFIDENCE, CONFIDENCE_DECAY]
    have hsf : (0 : ℚ) ≤ (if 0 < fit_score then max (1 / 2) fit_score else 6 / 10) := by
      split_ifs
      · exact le_trans (by norm_num) (le_max_left _ _)
      · norm_num
    have htf : max (1 / 2 : ℚ) (8 / 10 - (step' : ℚ) * (1 / 100)) ≤
        max (1 / 2) (8 / 10 - (step : ℚ) * (1 / 100)) := by
      have : ((step : ℚ)) ≤ ((step' : ℚ)) := by exact_mod_cast hs
      gcongr
    gcongr

/-- C5 witness: the combined statement instantiated at step 2, horizon
30, fit score one half, later step 5, with the monotonicity hypothesis
discharged. -/
theorem c5_witness :
    (2 ≤ 5 ∧ calculate_confidence 2 30 (1 / 2) = confidenceSpec 2 (1 / 2) ∧
      1 / 2 ≤ calculate_confidence 2 30 (1 / 2) ∧
      calculate_confidence 2 30 (1 / 2) ≤ 95 / 100 ∧
      calculate_confidence 5 30 (1 / 2) ≤ calculate_confidence 2 30 (1 / 2)) :=
  ⟨by decide, (c5_confidence_formula 2 30 (1 / 2) 5).1,
   (c5_confidence_formula 2 30 (1 / 2) 5).2.1,
   (c5_confidence_formula 2 30 (1 / 2) 5).2.2.1,
   (c5_confidence_formula 2 30 (1 / 2) 5).2.2.2 (by decide)⟩

/-- C8: trend analysis on a prediction list whose first predicted value
is 0 returns no insights at all — the zero guard returns before the
division by the first value is ever evaluated. -/
theorem c8_zero_first_value_skips_trend (preds : List PredictionPoint)
    (prediction_type : String) (p0 : PredictionPoint)
    (h1 : preds.head? = some p0) (h2 : p0.predicted_value = 0) :
    analyze_trend preds prediction_type = [] := by
  unfold analyze_trend
  split
  · rfl
  · cases preds with
    | nil => simp at h1
    | cons a t =>
      simp only [List.head?_cons, Option.some.injEq] at h1
      subst h1
      simp [h2]

/-- C8 witness: the specification's own example, predictions 0 then 50. -/
theorem c8_witness :
    (([⟨0, 0, 6 / 10⟩, ⟨1, 50, 6 / 10⟩] : List PredictionPoint).head? =
        some ⟨0, 0, 6 / 10⟩ ∧
      (⟨0, 0, 6 / 10⟩ : PredictionPoint).predicted_value = 0) ∧
    analyze_trend [⟨0, 0, 6 / 10⟩, ⟨1, 50, 6 / 10⟩] "inventory" = [] :=
  ⟨⟨by with_unfolding_all decide, by with_unfolding_all decide⟩,
   c8_zero_first_value_skips_trend
     [⟨0, 0, 6 / 10⟩, ⟨1, 50, 6 / 10⟩] "inventory" ⟨0, 0, 6 / 10⟩
     (by with_unfolding_all decide) (by with_unfolding_all decide)⟩

theorem static_insights_length_le (ext : Ext) (preds : List PredictionPoint)
    (prediction_type : String) (historical : Option Frame) :
    (generate_static_insights ext preds prediction_type historical).length ≤ 6 := by
  unfold generate_static_insights
  split
  · simp
  · split
    · simp
    · simp only [List.length_take]
      omega

/-- C9: every response of the orchestrator carries at most 6 insight
strings — on the AI path, the rule-based path, the insight-error
fallback, and the total-pipeline fallback alike. -/
theorem c9_insights_at_most_six (ext : Ext) (raw : RawData)
    (prediction_type entity_id : String) (time_horizon : ℕ) :
    (generate_predictions ext raw prediction_type entity_id
      time_horizon).insights.length ≤ 6 := by
  unfold generate_predictions
  split
  · unfold generate_fallback_predictions
    simp
  · dsimp only
    unfold generate_insights_async
    split
    · exact static_insights_length_le _ _ _ _
    · split
      · simp
      · split
        · simp only [List.length_take]
          omega
        · simp only [List.length_take]
          omega

/-- C10: whenever the fallback-model tier produces the predictions
(because the prepared frame is below the 5-row minimum or the primary
path raised) and the fallback body itself does not raise, every point
carries the constant confidence 0.6, independent of step, horizon and
fit score; the internal except-branch and the total-pipeline fallback
are the only paths using flat 100.0 at confidence 0.5. -/
theorem c10_fallback_confidence_constant (ext : Ext) (f : Frame)
    (prediction_type entity_id error_msg : String) (time_horizon : ℕ) :
    (f.nrows < MIN_DATA_POINTS →
      create_predictions ext f prediction_type time_horizon =
        fallback_predictions ext f prediction_type time_horizon) ∧
    (ext.primaryRaises = true →
      create_predictions ext f prediction_type time_horizon =
        fallback_predictions ext f prediction_type time_horizon) ∧
    (ext.fallbackRaises = false →
      ∀ p ∈ fallback_predictions ext f prediction_type time_horizon,
        p.confidence = 6 / 10) ∧
    (ext.fallbackRaises = true →
      ∀ p ∈ fallback_predictions ext f prediction_type time_horizon,
        p.confidence = 1 / 2 ∧ p.predicted_value = 100) ∧
    (∀ p ∈ (generate_fallback_predictions ext prediction_type entity_id
        time_horizon error_msg).predictions,
      p.confidence = 1 / 2 ∧ p.predicted_value = 100) := by
  refine ⟨?_, ?_, ?_, ?_, ?_⟩
  · intro h
    unfold create_predictions
    rw [if_pos h]
  · intro h
    unfold create_predictions
    split
    · rfl
    · rfl
  · intro h p hp
    unfold fallback_predictions at hp
    rw [h] at hp
    simp only [Bool.false_eq_true, if_false] at hp
    simp only [List.mem_map] at hp
    obtain ⟨q, _, rfl⟩ := hp
    rfl
  · intro h p hp
    unfold fallback_predictions at hp
    rw [h] at hp
    simp only [if_true] at hp
    simp only [List.mem_map] at hp
    obtain ⟨q, _, rfl⟩ := hp
    exact ⟨rfl, rfl⟩
  · intro p hp
    unfold generate_fallback_predictions at hp
    simp only [List.mem_map] at hp
    obtain ⟨q, _, rfl⟩ := hp
    exact ⟨rfl, rfl⟩

/-- C10 witness: all five components instantiated on a concrete
below-threshold run (empty frame, horizon 3) with all hypotheses
discharged. -/
theorem c10_witness :
    (Frame.emptyFrame.nrows < MIN_DATA_POINTS ∧
      create_predictions extDummy Frame.emptyFrame "inventory" 3 =
        fallback_predictions extDummy Frame.emptyFrame "inventory" 3) ∧
    (extDummy.fallbackRaises = false ∧
      ∀ p ∈ fallback_predictions extDummy Frame.emptyFrame "inventory" 3,
        p.confidence = 6 / 10) ∧
    (∀ p ∈ (generate_fallback_predictions extDummy "inventory" "SKU001" 3
        "err").predictions,
      p.confidence = 1 / 2 ∧ p.predicted_value = 100) :=
  ⟨⟨by decide,
    (c10_fallback_confidence_constant extDummy Frame.emptyFrame "inventory" "SKU001"
      "err" 3).1 (by decide)⟩,
   ⟨by decide,
    (c10_fallback_confidence_constant extDummy Frame.emptyFrame "inventory" "SKU001"
      "err" 3).2.2.1 (by decide)⟩,
   (c10_fallback_confidence_constant extDummy Frame.emptyFrame "inventory" "SKU001"
      "err" 3).2.2.2.2⟩

theorem sum_map_shift (l : List (ℚ × ℚ)) (c d : ℚ) :
    (l.map (fun p => (p.1 - c) * (p.2 - d))).sum =
      (l.map (fun p => p.1 * p.2)).sum - d * (l.map Prod.fst).sum -
        c * (l.map Prod.snd).sum + (l.length : ℚ) * (c * d) := by
  induction l with
  | nil => simp
  | cons a t ih =>
    simp only [List.map_cons, List.sum_cons, List.length_cons, ih]
    push_cast
    ring

theorem sum_map_sq_shift (l : List ℚ) (c : ℚ) :
    (l.map (fun x => (x - c) ^ 2)).sum =
      (l.map (fun x => x ^ 2)).sum - 2 * c * l.sum + (l.length : ℚ) * c ^ 2 := by
  induction l with
  | nil => simp
  | cons a t ih =>
    simp only [List.map_cons, List.sum_cons, List.length_cons, ih]
    push_cast
    ring

/-- C7: the linear-trend fallback model coincides with its
specification — least-squares slope and intercept over the index
sequence (here in raw-moment form), projections floored at 0, and the
last known value (or 0) repeated when fewer than 2 points exist. -/
theorem c7_trend_model_refines_spec (data : List ℚ) (steps : ℕ) :
    trendPredict data steps = trendModelSpec data steps := by
  unfold trendPredict trendModelSpec
  split
  · rename_i hlt
    match data, hlt with
    | [], _ => rfl
    | [a], _ => rfl
  · rename_i hge
    push_neg at hge
    dsimp only
    set xs : List ℚ := (List.range data.length).map (fun (i : ℕ) => (i : ℚ)) with hxs
    set sx := xs.sum with hsx
    set sy := data.sum with hsy
    set sxy := ((xs.zip data).map (fun p => p.1 * p.2)).sum with hsxy
    set sxx := (xs.map (fun v => v ^ 2)).sum with hsxx
    have hxlen : xs.length = data.length := by
      rw [hxs, List.length_map, List.length_range]
    have hn0 : ((data.length : ℚ)) ≠ 0 := by
      have : data.length ≠ 0 := by omega
      exact_mod_cast this
  -- means as raw sums
    have hxm : qMean xs = sx / (data.length : ℚ) := by
      rw [qMean, if_neg, hxlen]
      rw [List.isEmpty_iff]
      intro hnil
      rw [hnil] at hxlen
      simp at hxlen
      omega
    have hym : qMean data = sy / (data.length : ℚ) := by
      rw [qMean, if_neg]
      rw [List.isEmpty_iff]
      intro hnil
      rw [hnil] at hge
      simp at hge
    have hfst : (xs.zip data).map Prod.fst = xs :=
      List.map_fst_zip xs data (le_of_eq hxlen)
    have hsnd : (xs.zip data).map Prod.snd = data :=
      List.map_snd_zip xs data (ge_of_eq hxlen)
    have hziplen : ((xs.zip data).length : ℚ) = (data.length : ℚ) := by
      rw [List.length_zip, hxlen]
      simp
    have hN : ((xs.zip data).map
        (fun p => (p.1 - qMean xs) * (p.2 - qMean data))).sum =
        ((data.length : ℚ) * sxy - sx * sy) / (data.length : ℚ) := by
      rw [sum_map_shift, hfst, hsnd, hziplen, hxm, hym, ← hsx, ← hsy, ← hsxy]
      field_simp
      ring
    have hD : (xs.map (fun v => (v - qMean xs) ^ 2)).sum =
        ((data.length : ℚ) * sxx - sx ^ 2) / (data.length : ℚ) := by
      rw [sum_map_sq_shift, hxm, hxlen, ← hsx, ← hsxx]
      field_simp
      ring
    have hslope : (((xs.zip data).map
        (fun p => (p.1 - qMean xs) * (p.2 - qMean data))).sum) /
          ((xs.map (fun v => (v - qMean xs) ^ 2)).sum) =
        ((data.length : ℚ) * sxy - sx * sy) /
          ((data.length : ℚ) * sxx - sx ^ 2) := by
      rw [hN, hD]
      rcases eq_or_ne ((data.length : ℚ) * sxx - sx ^ 2) 0 with h0 | h0
      · rw [h0]
        simp
      · rw [div_div_div_cancel_right₀]
        exact hn0
    rw [List.map_map]
    refine List.map_congr_left ?_
    intro k _
    simp only [Function.comp_apply]
    rw [qmax_eq, hslope, hym, hxm]
    have hic : ∀ A : ℚ, sy / (data.length : ℚ) - A * (sx / (data.length : ℚ)) =
        (sy - A * sx) / (data.length : ℚ) := by
      intro A
      rw [sub_div, mul_div_assoc]
    rw [hic]

theorem opt_cell_nonneg (q : List ℚ) (i : ℕ) (hq : ∀ v ∈ q, 0 ≤ v) :
    0 ≤ ((q.map some).getD i none).getD 0 := by
  rcases h : (q.map some).getD i none with _ | v
  · simp
  · rw [List.getD_eq_getElem?_getD] at h
    rcases h2 : (q.map some)[i]? with _ | o
    · rw [h2] at h
      simp at h
    · rw [h2] at h
      simp only [Option.getD_some] at h
      have ho : o ∈ q.map some := List.getElem?_mem h2
      rw [h] at ho
      simp only [List.mem_map] at ho
      obtain ⟨w, hw, hwv⟩ := ho
      simp only [Option.some.injEq] at hwv
      subst hwv
      simpa using hq w hw

theorem qmin_one_qmax_zero_nonneg (x : ℚ) : 0 ≤ qmin 1 (qmax 0 x) := by
  rw [qmin_eq, qmax_eq]
  exact le_min (by norm_num) (le_max_left 0 x)

theorem groupSumBy_snd_nonneg (rows : List (ℤ × ℚ))
    (h : ∀ r ∈ rows, 0 ≤ r.2) :
    ∀ v ∈ (groupSumBy rows).map Prod.snd, 0 ≤ v := by
  intro v hv
  simp only [groupSumBy, List.map_map, List.mem_map] at hv
  obtain ⟨d, _, rfl⟩ := hv
  dsimp only [Function.comp_apply]
  apply List.sum_nonneg
  intro x hx
  simp only [List.mem_map, List.mem_filter] at hx
  obtain ⟨r, ⟨hr, _⟩, rfl⟩ := hx
  exact h r hr

theorem mem_sortByDate {α : Type} (dateOf : α → ℤ) (l : List α) :
    ∀ x ∈ sortByDate dateOf l, x ∈ l := by
  intro x hx
  exact (List.perm_insertionSort _ l).mem_iff.mp hx

theorem getCol_mk_cons_self (dates : List ℤ) (name : String)
    (col : List (Option ℚ)) (rest : List (String × List (Option ℚ))) :
    (Frame.mk dates ((name, col) :: rest)).getCol name = col := by
  unfold Frame.getCol
  rw [List.find?_cons_of_pos]
  · rfl
  · exact decide_eq_true rfl

theorem colD_dropna_head_nonneg (dates : List ℤ) (name : String) (q : List ℚ)
    (rest : List (String × List (Option ℚ))) (hq : ∀ v ∈ q, 0 ≤ v) :
    ∀ v ∈ (Frame.dropna ⟨dates, (name, q.map some) :: rest⟩).colD name, 0 ≤ v := by
  intro v hv
  simp only [Frame.dropna, Frame.selectRows, List.map_cons, Frame.colD,
    getCol_mk_cons_self, List.map_map, List.mem_map] at hv
  obtain ⟨i, _, rfl⟩ := hv
  exact opt_cell_nonneg q i hq

theorem colD_fillna_head (dates : List ℤ) (name : String) (q : List ℚ)
    (rest : List (String × List (Option ℚ))) :
    (Frame.fillna ⟨dates, (name, q.map some) :: rest⟩).colD name = q := by
  simp only [Frame.fillna, List.map_cons, Frame.colD, getCol_mk_cons_self,
    List.map_map]
  exact List.map_id q

theorem inventory_target_nonneg (ext : Ext) (data : RawData)
    (hq : ∀ r ∈ data.history, 0 ≤ r.quantity) :
    ∀ v ∈ (prepare_inventory_features ext data).colD "quantity", 0 ≤ v := by
  intro v hv
  rcases hd : data.history with _ | ⟨a, t⟩
  · simp only [prepare_inventory_features, hd, Frame.emptyFrame, Frame.colD,
      Frame.getCol, List.find?_nil, Option.map_none', Option.getD_none,
      List.map_nil] at hv
    exact absurd hv (List.not_mem_nil v)
  · simp only [prepare_inventory_features, hd] at hv
    refine colD_dropna_head_nonneg _ _ _ _ ?_ v hv
    intro w hw
    simp only [List.mem_map] at hw
    obtain ⟨r, hr, rfl⟩ := hw
    exact hq r (hd ▸ mem_sortByDate _ _ r hr)

theorem getCol_mk_cons_ne (dates : List ℤ) (name c : String)
    (col : List (Option ℚ)) (rest : List (String × List (Option ℚ)))
    (h : ¬ name = c) :
    (Frame.mk dates ((name, col) :: rest)).getCol c =
      (Frame.mk dates rest).getCol c := by
  unfold Frame.getCol
  rw [List.find?_cons_of_neg]
  intro hc
  exact h (of_decide_eq_true hc)

theorem colD_emptyFrame (c : String) : Frame.emptyFrame.colD c = [] := rfl

theorem budget_target_nonneg (ext : Ext) (data : RawData)
    (he : ∀ r ∈ data.expenses, 0 ≤ r.amount) :
    ∀ v ∈ (prepare_budget_features ext data).colD "amount", 0 ≤ v := by
  intro v hv
  rcases hd : data.expenses with _ | ⟨a, t⟩
  · simp only [prepare_budget_features, hd] at hv
    rw [colD_emptyFrame] at hv
    exact absurd hv (List.not_mem_nil v)
  · simp only [prepare_budget_features, hd] at hv
    rw [colD_fillna_head] at hv
    refine groupSumBy_snd_nonneg _ ?_ v hv
    intro r hr
    simp only [List.mem_map] at hr
    obtain ⟨w, hw, rfl⟩ := hr
    exact he w (hd ▸ hw)

theorem sales_target_nonneg (ext : Ext) (data : RawData)
    (ho : ∀ r ∈ data.orders, 0 ≤ r.total_amount) :
    ∀ v ∈ (prepare_sales_features ext data).colD "total_amount", 0 ≤ v := by
  intro v hv
  rcases hd : data.orders with _ | ⟨a, t⟩
  · simp only [prepare_sales_features, hd] at hv
    rw [colD_emptyFrame] at hv
    exact absurd hv (List.not_mem_nil v)
  · simp only [prepare_sales_features, hd] at hv
    rw [colD_fillna_head] at hv
    refine groupSumBy_snd_nonneg _ ?_ v hv
    intro r hr
    simp only [List.mem_map] at hr
    obtain ⟨w, hw, rfl⟩ := hr
    exact ho w (hd ▸ hw)

theorem resource_target_nonneg (ext : Ext) (data : RawData) :
    ∀ v ∈ (prepare_resource_features ext data).colD "utilization_rate", 0 ≤ v := by
  intro v hv
  rcases hd : data.utilization_data with _ | ⟨a, t⟩
  · simp only [prepare_resource_features, hd] at hv
    rw [colD_emptyFrame] at hv
    exact absurd hv (List.not_mem_nil v)
  · simp only [prepare_resource_features, hd, Frame.fillna, List.map_cons,
      Frame.colD] at hv
    rw [getCol_mk_cons_ne _ "utilized_hours" "utilization_rate" _ _ (by decide),
      getCol_mk_cons_ne _ "available_hours" "utilization_rate" _ _ (by decide),
      getCol_mk_cons_self] at hv
    simp only [List.map_map, List.mem_map] at hv
    obtain ⟨p, _, rfl⟩ := hv
    exact qmin_one_qmax_zero_nonneg _

theorem target_nonneg (ext : Ext) (raw : RawData) (prediction_type : String)
    (hq : ∀ r ∈ raw.history, 0 ≤ r.quantity)
    (he : ∀ r ∈ raw.expenses, 0 ≤ r.amount)
    (ho : ∀ r ∈ raw.orders, 0 ≤ r.total_amount) :
    ∀ v ∈ (prepare_features ext raw prediction_type).colD
        (get_target_column prediction_type), 0 ≤ v := by
  unfold prepare_features get_target_column
  by_cases h1 : prediction_type = "inventory"
  · simp only [h1, if_true, if_pos]
    exact inventory_target_nonneg ext raw hq
  by_cases h2 : prediction_type = "budget"
  · simp only [h1, h2, if_true, if_false]
    exact budget_target_nonneg ext raw he
  by_cases h3 : prediction_type = "resource"
  · simp only [h1, h2, h3, if_true, if_false]
    exact resource_target_nonneg ext raw
  by_cases h4 : prediction_type = "sales"
  · simp only [h1, h2, h3, h4, if_true, if_false]
    exact sales_target_nonneg ext raw ho
  · simp only [h1, h2, h3, h4, if_false]
    intro v hv
    rw [colD_emptyFrame] at hv
    exact absurd hv (List.not_mem_nil v)

theorem snd_mem_of_mem_enum {α : Type} {l : List α} {q : ℕ × α}
    (h : q ∈ l.enum) : q.2 ∈ l := by
  have h2 := List.mem_map_of_mem Prod.snd h
  rwa [List.enum_map_snd] at h2

theorem modelPredict_nonneg (ext : Ext) (trained : Bool) (X : List (List ℚ)) :
    ∀ v ∈ modelPredict ext trained X, 0 ≤ v := by
  intro v hv
  unfold modelPredict at hv
  split at hv
  · simp only [List.mem_map] at hv
    obtain ⟨row, _, rfl⟩ := hv
    rw [qmax_eq]
    exact le_max_right _ _
  · rw [List.eq_of_mem_replicate hv]

theorem fallback_predictions_bounds (ext : Ext) (f : Frame)
    (prediction_type : String) (time_horizon : ℕ)
    (htgt : ∀ v ∈ f.colD (get_target_column prediction_type), 0 ≤ v) :
    ∀ p ∈ fallback_predictions ext f prediction_type time_horizon,
      0 ≤ p.predicted_value ∧ 1 / 2 ≤ p.confidence ∧ p.confidence ≤ 95 / 100 := by
  intro p hp
  unfold fallback_predictions at hp
  split at hp
  · simp only [List.mem_map] at hp
    obtain ⟨i, _, rfl⟩ := hp
    exact ⟨by norm_num, le_refl _, by norm_num⟩
  · dsimp only at hp
    simp only [List.mem_map] at hp
    obtain ⟨q, hq, rfl⟩ := hp
    have hq2 := snd_mem_of_mem_enum hq
    refine ⟨round2_nonneg ?_, by norm_num, by norm_num⟩
    split at hq2
    · exact trendPredict_nonneg htgt time_horizon q.2 hq2
    · rw [List.eq_of_mem_replicate hq2]
      norm_num

theorem create_predictions_bounds (ext : Ext) (f : Frame)
    (prediction_type : String) (time_horizon : ℕ)
    (htgt : ∀ v ∈ f.colD (get_target_column prediction_type), 0 ≤ v) :
    ∀ p ∈ create_predictions ext f prediction_type time_horizon,
      0 ≤ p.predicted_value ∧ 1 / 2 ≤ p.confidence ∧ p.confidence ≤ 95 / 100 := by
  intro p hp
  unfold create_predictions at hp
  split at hp
  · exact fallback_predictions_bounds ext f prediction_type time_horizon htgt p hp
  split at hp
  · exact fallback_predictions_bounds ext f prediction_type time_horizon htgt p hp
  dsimp only at hp
  split at hp
  · exact fallback_predictions_bounds ext f prediction_type time_horizon htgt p hp
  split at hp
  · exact fallback_predictions_bounds ext f prediction_type time_horizon htgt p hp
  simp only [List.mem_map] at hp
  obtain ⟨q, hq, rfl⟩ := hp
  refine ⟨round2_nonneg ?_,
    (round2_in_unit_bounds (calculate_confidence_bounds _ _ _).1
      (calculate_confidence_bounds _ _ _).2).1,
    (round2_in_unit_bounds (calculate_confidence_bounds _ _ _).1
      (calculate_confidence_bounds _ _ _).2).2⟩
  have h1 := snd_mem_of_mem_enum hq
  rw [← Prod.mk.eta (p := q.2)] at h1
  exact modelPredict_nonneg _ _ _ _ (List.mem_zip h1).2

/-- C2 counterexample: a budget request whose only historical expense is
-50 produces fallback predictions with predicted value -50, violating
the claimed unconditional non-negativity. -/
theorem c2_counterexample :
    (generate_predictions extDummy { expenses := [⟨0, -50⟩] } "budget"
        "Marketing" 3).predictions.headD default ∈
      (generate_predictions extDummy { expenses := [⟨0, -50⟩] } "budget"
        "Marketing" 3).predictions ∧
    ((generate_predictions extDummy { expenses := [⟨0, -50⟩] } "budget"
        "Marketing" 3).predictions.headD default).predicted_value = -50 ∧
    ¬ (0 ≤ ((generate_predictions extDummy { expenses := [⟨0, -50⟩] } "budget"
        "Marketing" 3).predictions.headD default).predicted_value) := by
  refine ⟨?_, ?_, ?_⟩ <;> with_unfolding_all decide

theorem fallback_predictions_conf_bounds (ext : Ext) (f : Frame)
    (prediction_type : String) (time_horizon : ℕ) :
    ∀ p ∈ fallback_predictions ext f prediction_type time_horizon,
      1 / 2 ≤ p.confidence ∧ p.confidence ≤ 95 / 100 := by
  intro p hp
  unfold fallback_predictions at hp
  split at hp
  · simp only [List.mem_map] at hp
    obtain ⟨i, _, rfl⟩ := hp
    exact ⟨le_refl _, by norm_num⟩
  · dsimp only at hp
    simp only [List.mem_map] at hp
    obtain ⟨q, _, rfl⟩ := hp
    exact ⟨by norm_num, by norm_num⟩

theorem create_predictions_conf_bounds (ext : Ext) (f : Frame)
    (prediction_type : String) (time_horizon : ℕ) :
    ∀ p ∈ create_predictions ext f prediction_type time_horizon,
      1 / 2 ≤ p.confidence ∧ p.confidence ≤ 95 / 100 := by
  intro p hp
  unfold create_predictions at hp
  split at hp
  · exact fallback_predictions_conf_bounds ext f prediction_type time_horizon p hp
  split at hp
  · exact fallback_predictions_conf_bounds ext f prediction_type time_horizon p hp
  dsimp only at hp
  split at hp
  · exact fallback_predictions_conf_bounds ext f prediction_type time_horizon p hp
  split at hp
  · exact fallback_predictions_conf_bounds ext f prediction_type time_horizon p hp
  simp only [List.mem_map] at hp
  obtain ⟨q, _, rfl⟩ := hp
  exact round2_in_unit_bounds (calculate_confidence_bounds _ _ _).1
    (calculate_confidence_bounds _ _ _).2

/-- C2 amended: the confidence bound 0.5 ≤ c ≤ 0.95 holds
unconditionally, on every path and for every historical input; the
bound predicted_value ≥ 0 holds whenever the raw historical target
values (quantities, expense amounts, order totals) are all
non-negative — a single negative historical value can surface unfloored
through the single-point trend fallback. -/
theorem c2_amended_nonneg_under_nonneg_history (ext : Ext) (raw : RawData)
    (prediction_type entity_id : String) (time_horizon : ℕ) :
    (∀ p ∈ (generate_predictions ext raw prediction_type entity_id
        time_horizon).predictions,
      1 / 2 ≤ p.confidence ∧ p.confidence ≤ 95 / 100) ∧
    ((∀ r ∈ raw.history, 0 ≤ r.quantity) →
     (∀ r ∈ raw.expenses, 0 ≤ r.amount) →
     (∀ r ∈ raw.orders, 0 ≤ r.total_amount) →
      ∀ p ∈ (generate_predictions ext raw prediction_type entity_id
          time_horizon).predictions,
        0 ≤ p.predicted_value) := by
  constructor
  · intro p hp
    unfold generate_predictions at hp
    split at hp
    · unfold generate_fallback_predictions at hp
      dsimp only at hp
      simp only [List.mem_map] at hp
      obtain ⟨i, _, rfl⟩ := hp
      exact ⟨le_refl _, by norm_num⟩
    · dsimp only at hp
      exact create_predictions_conf_bounds ext _ prediction_type time_horizon p hp
  · intro hq he ho p hp
    unfold generate_predictions at hp
    split at hp
    · unfold generate_fallback_predictions at hp
      dsimp only at hp
      simp only [List.mem_map] at hp
      obtain ⟨i, _, rfl⟩ := hp
      norm_num
    · dsimp only at hp
      exact (create_predictions_bounds ext _ prediction_type time_horizon
        (target_nonneg ext raw prediction_type hq he ho) p hp).1

/-- C2 witness: the amended statement instantiated on an empty-data
inventory request — the unconditional confidence part taken directly,
the value part with its non-negative-history hypotheses discharged. -/
theorem c2_witness :
    ((∀ r ∈ ({} : RawData).history, 0 ≤ r.quantity) ∧
      (∀ r ∈ ({} : RawData).expenses, 0 ≤ r.amount) ∧
      (∀ r ∈ ({} : RawData).orders, 0 ≤ r.total_amount)) ∧
    (∀ p ∈ (generate_predictions extDummy {} "inventory" "SKU001" 5).predictions,
      1 / 2 ≤ p.confidence ∧ p.confidence ≤ 95 / 100) ∧
    (∀ p ∈ (generate_predictions extDummy {} "inventory" "SKU001" 5).predictions,
      0 ≤ p.predicted_value) :=
  ⟨⟨fun r hr => absurd hr (List.not_mem_nil r),
    fun r hr => absurd hr (List.not_mem_nil r),
    fun r hr => absurd hr (List.not_mem_nil r)⟩,
   (c2_amended_nonneg_under_nonneg_history extDummy {} "inventory" "SKU001" 5).1,
   (c2_amended_nonneg_under_nonneg_history extDummy {} "inventory" "SKU001" 5).2
     (fun r hr => absurd hr (List.not_mem_nil r))
     (fun r hr => absurd hr (List.not_mem_nil r))
     (fun r hr => absurd hr (List.not_mem_nil r))⟩

/-- C3 counterexample: a one-record inventory history prepares to a
frame with 0 rows (below the minimum of 5), yet the response metadata
still reports the primary trainable model identifier, not a fallback
one. -/
theorem c3_counterexample :
    (prepare_features extDummy { history := [⟨0, 5⟩] } "inventory").nrows <
        MIN_DATA_POINTS ∧
    (generate_predictions extDummy { history := [⟨0, 5⟩] } "inventory" "SKU001"
        5).metadata.model_used = "linear_regression" ∧
    "linear_regression" ≠ "fallback" := by
  refine ⟨?_, ?_, ?_⟩ <;> with_unfolding_all decide

/-- C3 amended: below the minimum training threshold the predictions do
come from the fallback tier, but `metadata.model_used` still reports the
primary model type string "linear_regression" — the engine never tracks
which tier produced the predictions; only the total-pipeline fallback
labels the response "fallback". -/
theorem c3_amended_metadata_reports_primary (ext : Ext) (raw : RawData)
    (prediction_type entity_id : String) (time_horizon : ℕ)
    (hfetch : ext.fetchRaises = false)
    (hrows : (prepare_features ext raw prediction_type).nrows < MIN_DATA_POINTS) :
    (generate_predictions ext raw prediction_type entity_id
        time_horizon).predictions =
      fallback_predictions ext (prepare_features ext raw prediction_type)
        prediction_type time_horizon ∧
    (generate_predictions ext raw prediction_type entity_id
        time_horizon).metadata.model_used = "linear_regression" := by
  have hnot : ¬ (ext.fetchRaises = true) := by
    rw [hfetch]
    exact Bool.false_ne_true
  unfold generate_predictions
  rw [if_neg hnot]
  dsimp only
  constructor
  · unfold create_predictions
    rw [if_pos hrows]
  · rfl

/-- C3 witness: the amended statement on the concrete one-record
inventory run. -/
theorem c3_witness :
    (extDummy.fetchRaises = false ∧
      (prepare_features extDummy { history := [⟨0, 5⟩] } "inventory").nrows <
        MIN_DATA_POINTS) ∧
    ((generate_predictions extDummy { history := [⟨0, 5⟩] } "inventory" "SKU001"
        5).predictions =
      fallback_predictions extDummy
        (prepare_features extDummy { history := [⟨0, 5⟩] } "inventory")
        "inventory" 5 ∧
    (generate_predictions extDummy { history := [⟨0, 5⟩] } "inventory" "SKU001"
        5).metadata.model_used = "linear_regression") :=
  ⟨⟨by decide, by with_unfolding_all decide⟩,
   c3_amended_metadata_reports_primary extDummy { history := [⟨0, 5⟩] }
     "inventory" "SKU001" 5 (by decide) (by with_unfolding_all decide)⟩

/-- C6 counterexample: a resource record with fractional available
hours (1/2) and utilized hours 1/4: the code divides by the raw 1/2
(replace only maps exact 0 to 1) and yields rate 1/2, while the claimed
`utilized / max(available, 1)` formula yields 1/4. -/
theorem c6_counterexample :
    (prepare_resource_features extDummy
        { utilization_data := [⟨0, 1 / 4, 1 / 2⟩] }).getCol "utilization_rate" =
      [some (1 / 2)] ∧
    utilizationRateSpec (1 / 4) (1 / 2) = 1 / 4 ∧
    ((1 / 2 : ℚ)) ≠ 1 / 4 := by
  refine ⟨by with_unfolding_all decide, ?_, by norm_num⟩
  rw [utilizationRateSpec, clampQ, max_eq_right (by norm_num : (1 / 2 : ℚ) ≤ 1)]
  rw [show (1 / 4 : ℚ) / 1 = 1 / 4 by norm_num]
  rw [min_eq_right (by norm_num : (1 / 4 : ℚ) ≤ 1)]
  exact max_eq_right (by norm_num)

/-- C6 amended: the engineered utilization_rate column equals
`utilized_hours / available_hours` with only an exactly-zero divisor
replaced by 1 (pandas `.replace(0, 1)`), clamped to [0, 1] — fractional
or negative available_hours are used as-is as the divisor, unlike the
claimed `max(available_hours, 1)`. -/
theorem c6_amended_utilization_rate (ext : Ext) (data : RawData)
    (h : data.utilization_data ≠ []) :
    (prepare_resource_features ext data).getCol "utilization_rate" =
      (sortByDate (fun r => r.date) data.utilization_data).map
        (fun r => some (qmin 1 (qmax 0 (r.utilized_hours /
          (if r.available_hours = 0 then 1 else r.available_hours))))) := by
  rcases hd : data.utilization_data with _ | ⟨a, t⟩
  · exact absurd hd h
  · simp only [prepare_resource_features, hd, Frame.fillna, List.map_cons]
    rw [getCol_mk_cons_ne _ "utilized_hours" "utilization_rate" _ _ (by decide),
      getCol_mk_cons_ne _ "available_hours" "utilization_rate" _ _ (by decide),
      getCol_mk_cons_self]
    rw [List.zip_map', List.map_map, List.map_map, List.map_map]
    rfl

/-- C6 witness: the amended column formula on the concrete fractional
record (utilized 1/4, available 1/2), hypothesis discharged. -/
theorem c6_witness :
    (({ utilization_data := [⟨0, 1 / 4, 1 / 2⟩] } : RawData).utilization_data ≠ []) ∧
    (prepare_resource_features extDummy
        { utilization_data := [⟨0, 1 / 4, 1 / 2⟩] }).getCol "utilization_rate" =
      (sortByDate (fun r => r.date)
          ({ utilization_data := [⟨0, 1 / 4, 1 / 2⟩] } : RawData).utilization_data).map
        (fun r => some (qmin 1 (qmax 0 (r.utilized_hours /
          (if r.available_hours = 0 then 1 else r.available_hours))))) :=
  ⟨by decide,
   c6_amended_utilization_rate extDummy { utilization_data := [⟨0, 1 / 4, 1 / 2⟩] }
     (by decide)⟩

set_option maxRecDepth 8000 in
/-- C4 counterexample: on empty historical data the engine does not
raise, so the orchestrator never reaches its pipeline fallback: the
30 flat predictions carry confidence 0.6 (the fallback-tier constant),
not the claimed 0.5, and the rule-based pipeline emits 3 insights, not
exactly 2. -/
theorem c4_counterexample :
    ((generate_predictions extDummy {} "inventory" "SKU001"
        30).predictions.headD default).confidence = 6 / 10 ∧
    ((6 / 10 : ℚ)) ≠ 1 / 2 ∧
    (generate_predictions extDummy {} "inventory" "SKU001" 30).insights.length = 3 ∧
    (3 : ℕ) ≠ 2 := by
  refine ⟨?_, ?_, ?_, ?_⟩ <;> with_unfolding_all decide

set_option maxRecDepth 8000 in
/-- C4 amended: the empty-data inventory run with horizon 30 yields the
local fallback output, not the pipeline fallback: 30 flat predictions at
value 100.0 with confidence 0.6 dated consecutively from now,
metadata with data_points 0 but model_used "linear_regression", and the
3 rule-based insights of the stable-trend path. -/
theorem c4_amended_empty_data_run :
    generate_predictions extDummy {} "inventory" "SKU001" 30 =
      ⟨"inventory", "SKU001", 30,
       (List.range 30).map (fun (i : ℕ) => ⟨(i : ℤ) + 1, 100, 6 / 10⟩),
       ["Demand expected to remain stable",
        "Current inventory levels appear adequate",
        "Prediction confidence is moderate - consider additional data collection"],
       ⟨"linear_regression", 0, 0, 6 / 10⟩⟩ := by
  with_unfolding_all decide
